import Mathlib

/-!
Verification of the DigiDoc report-analyser pipeline (src/digidoc.py) against
its specification.  Python strings are modelled as lists of characters;
the external reasoner (Gemini) is modelled as an oracle returning either a
response text or an error (exception).  All definitions are translated
directly from the source.
-/

set_option maxRecDepth 100000

namespace DigiDoc

/-- Python strings, modelled as lists of characters. -/
abbrev Str := List Char

/-- Characters stripped by Python's str.strip() with no arguments
(whitespace; the ASCII cases, which are the ones the pipeline meets). -/
def pyIsSpace (c : Char) : Bool :=
  c = ' ' || c = '\t' || c = '\n' || c = '\r' || c = '\x0b' || c = '\x0c'

/-- Truthiness of a Python string: non-empty. -/
def pyTruthy (s : Str) : Bool := !s.isEmpty

/-- digidoc.py line 48-57: the fixed part of analysis_prompt before the
interpolated gender. -/
def promptT1 : Str :=
  "\n    You are an advanced AI medical assistant. Given the following report text, analyze each observation in the following format:\n\n    Observation Name - Value with Units - Normal Ranges with Units - Status (normal/slightly over the border/slightly below the border/over the border/below the border).\n\n    Additionally, provide:\n      - Potential Risks associated with the report findings.\n      - Remedies to avoid these potential risks.\n      - Suggest which specialist doctor to consult if needed.\n\n    Patient Gender: ".data

/-- digidoc.py line 58-61: the fixed part of analysis_prompt between the
interpolated gender and the interpolated report text. -/
def promptT2 : Str := "\n\n    Report Text:\n    ".data

/-- digidoc.py line 61-62: the fixed part of analysis_prompt after the
interpolated report text. -/
def promptT3 : Str := "\n    ".data

/-- digidoc.py line 48-62: analysis_prompt, an f-string in which gender and
report_text are interpolated at construction time. -/
def analysisPrompt (reportText gender : Str) : Str :=
  promptT1 ++ gender ++ promptT2 ++ reportText ++ promptT3

/-- The literal pattern passed to str.replace at digidoc.py line 76. -/
def patRT : Str := "\x7breport_text\x7d".data

/-- digidoc.py line 21-34: summarize_report truncates a report longer than
max_length to its first max_length characters followed by an ellipsis. -/
def summarize_report (reportText : Str) (maxLength : Nat) : Str :=
  if reportText.length > maxLength then reportText.take maxLength ++ "...".data
  else reportText

/-- Fuel-driven slicing: successive slices s[0:n], s[n:2n], ... of a Python
string, as produced by the comprehension at digidoc.py line 72.  The fuel is
an upper bound on the number of slices; pythonChunks supplies a sufficient
one. -/
def sliceChunksF (n : Nat) : Nat → Str → List Str
  | _, [] => []
  | 0, _ :: _ => []
  | fuel + 1, c :: rest => (c :: rest).take n :: sliceChunksF n fuel ((c :: rest).drop n)

/-- digidoc.py line 72: [s[i:i + n] for i in range(0, len(s), n)]. -/
def pythonChunks (s : Str) (n : Nat) : List Str := sliceChunksF n s.length s

/-- Fuel-driven model of Python's str.replace for a non-empty pattern:
scan left to right, replacing each non-overlapping occurrence of pat. -/
def pyReplaceF (pat rep : Str) : Nat → Str → Str
  | _, [] => []
  | 0, s => s
  | fuel + 1, c :: rest =>
    if pat.isPrefixOf (c :: rest) && !pat.isEmpty then
      rep ++ pyReplaceF pat rep fuel ((c :: rest).drop pat.length)
    else
      c :: pyReplaceF pat rep fuel rest

/-- Python's str.replace(pat, rep) on s, for the non-empty patterns the
source uses. -/
def pyReplace (pat rep s : Str) : Str := pyReplaceF pat rep s.length s

/-- "\n".join(xs) (digidoc.py line 79). -/
def joinNL (xs : List Str) : Str := List.intercalate "\n".data xs

/-- The exceptions the reasoner call can raise (digidoc.py lines 80-85):
a StopCandidateException or any other exception. -/
inductive ReasonerError
  | stopCandidate
  | other (msg : Str)
deriving DecidableEq

/-- The external reasoner (chat.send_message), modelled as an oracle from
the prompt text to either a response text or a raised exception. -/
abbrev Reasoner := Str → Except ReasonerError Str

/-- The sequential send loop of digidoc.py lines 75-77, instrumented with
its trace: returns the list of prompts actually sent, in order, together
with either the list of response texts or the first raised exception.
A raised exception stops the loop at once. -/
def sendAll (send : Reasoner) : List Str → List Str × Except ReasonerError (List Str)
  | [] => ([], Except.ok [])
  | m :: ms =>
    match send m with
    | Except.error e => ([m], Except.error e)
    | Except.ok t =>
      let rest := sendAll send ms
      (m :: rest.1,
        match rest.2 with
        | Except.error e => Except.error e
        | Except.ok ts => Except.ok (t :: ts))

/-- The prompts sent by the loop at digidoc.py lines 75-76: one per chunk of
the summarized report, each being analysis_prompt.replace("\x7breport_text\x7d", chunk). -/
def analysisMessages (reportText gender : Str) : List Str :=
  (pythonChunks (summarize_report reportText 1000) 1000).map
    (fun c => pyReplace patRT c (analysisPrompt reportText gender))

/-- digidoc.py lines 37-85: analyze_report_content.  Builds the prompt,
summarizes and slices the report, sends one message per chunk, joins the
responses with newlines; any raised exception is caught and the empty
string is returned. -/
def analyze_report_content (send : Reasoner) (reportText gender : Str) : Str :=
  match (sendAll send (analysisMessages reportText gender)).2 with
  | Except.ok ts => joinNL ts
  | Except.error _ => []

/-- The trace of reasoner calls made by analyze_report_content, in order. -/
def analyzeTrace (send : Reasoner) (reportText gender : Str) : List Str :=
  (sendAll send (analysisMessages reportText gender)).1

/-- The error raised when a PDF cannot be opened at all
(pdfplumber.open on corrupt bytes, digidoc.py line 99). -/
inductive ExtractionError
  | extractionError
deriving DecidableEq

/-- An uploaded PDF as the document decoder sees it: either a readable page
sequence (page.extract_text() returns an optional string per page) or
corrupt bytes on which opening raises. -/
inductive PdfSource
  | ok (pages : List (Option Str))
  | corrupt
deriving DecidableEq

/-- An uploaded file (digidoc.py line 211): a PDF, or an image carrying the
analysis text the Gemini Flash call returns for it
(handle_image_uploads, digidoc.py lines 107-125). -/
inductive UFile
  | pdf (src : PdfSource)
  | image (analysis : Str)
deriving DecidableEq

/-- digidoc.py line 102: the condition `page_text and page_text.strip()`,
keeping a page only when extraction produced text with some
non-whitespace character. -/
def keepPage : Nat × Option Str → Option (Nat × Str)
  | (_, none) => none
  | (n, some t) => if t.any (fun c => !pyIsSpace c) then some (n, t) else none

/-- digidoc.py lines 100-103: the enumerate loop over pages, keeping the
(0-based page number, text) pairs of pages with non-whitespace content. -/
def pageUnitsFrom (n : Nat) : List (Option Str) → List (Nat × Str)
  | [] => []
  | p :: rest =>
    match keepPage (n, p) with
    | none => pageUnitsFrom (n + 1) rest
    | some u => u :: pageUnitsFrom (n + 1) rest

/-- The evidence units extracted from a page sequence. -/
def pageUnits (pages : List (Option Str)) : List (Nat × Str) := pageUnitsFrom 0 pages

/-- digidoc.py line 103: the f-string "\n\nPage .:\n." for one kept page. -/
def formatPageUnit (u : Nat × Str) : Str :=
  "\n\nPage ".data ++ (toString (u.1 + 1)).data ++ ":\n".data ++ u.2

/-- digidoc.py lines 88-104: extract_text_from_pdf.  Opening a corrupt PDF
raises; otherwise the formatted non-blank pages are concatenated. -/
def extract_text_from_pdf : PdfSource → Except ExtractionError Str
  | PdfSource.corrupt => Except.error ExtractionError.extractionError
  | PdfSource.ok pages => Except.ok (((pageUnits pages).map formatPageUnit).flatten)

/-- digidoc.py lines 215-220: the upload loop over (report_text,
image_context).  A PDF overwrites report_text; an image appends its Gemini
analysis to image_context.  The loop has no exception handler, so a raised
ExtractionError propagates and aborts it. -/
def uploadLoop : List UFile → Str × Str → Except ExtractionError (Str × Str)
  | [], st => Except.ok st
  | UFile.pdf src :: rest, st =>
    match extract_text_from_pdf src with
    | Except.error e => Except.error e
    | Except.ok t => uploadLoop rest (t, st.2)
  | UFile.image a :: rest, st => uploadLoop rest (st.1, st.2 ++ a)

/-- The extracted text of a readable PDF file, none for other files. -/
def pdfOut : UFile → Option Str
  | UFile.pdf (PdfSource.ok pages) => some (((pageUnits pages).map formatPageUnit).flatten)
  | _ => none

/-- The Gemini analysis of an image file, none for other files. -/
def imgOut : UFile → Option Str
  | UFile.image a => some a
  | _ => none

/-- Stated from the spec's words for claim C5: the extracted text of the
last PDF alone ("last PDF wins"). -/
def lastPdfExtractedText (files : List UFile) : Str :=
  (files.filterMap pdfOut).getLastD []

/-- Stated from the spec's words for claim C5: the image analyses of all
uploaded images, concatenated in arrival order ("all images accumulate"). -/
def allImageAnalyses (files : List UFile) : Str :=
  (files.filterMap imgOut).flatten

/-- Whether a page is skipped by the loop at digidoc.py line 102: extraction
returned None, or text with no non-whitespace character. -/
def isBlankPage : Option Str → Bool
  | none => true
  | some t => t.all pyIsSpace

/-- Truthiness of os.getenv's result (None, or a possibly empty string). -/
def pyTruthyOpt : Option Str → Bool
  | none => false
  | some s => !s.isEmpty

/-- digidoc.py lines 10-18: genai is configured only when the key is
truthy; with no configuration every reasoner call raises.  The oracle
send describes the configured reasoner. -/
def effectiveSend (apiKey : Option Str) (send : Reasoner) : Reasoner :=
  fun m =>
    if pyTruthyOpt apiKey then send m
    else Except.error (ReasonerError.other "API key not configured".data)

/-- The observable outcome of one top-level run of the digidoc.py script. -/
structure ScriptRun where
  keyErrorShown : Bool
  uploadResult : Except ExtractionError (Str × Str)
  analysisOutput : Option Str

/-- digidoc.py lines 10-18 and 202-226: the module-level script.  The
missing-key branch only displays an error message; the page, the upload
loop and the report analysis all run unconditionally afterwards (the
analysis only when report_text is truthy). -/
def scriptRun (apiKey : Option Str) (send : Reasoner) (gender : Str)
    (files : List UFile) : ScriptRun :=
  let keyMissing := !pyTruthyOpt apiKey
  match uploadLoop files ([], []) with
  | Except.error e =>
    { keyErrorShown := keyMissing, uploadResult := Except.error e, analysisOutput := none }
  | Except.ok (rt, ic) =>
    { keyErrorShown := keyMissing,
      uploadResult := Except.ok (rt, ic),
      analysisOutput :=
        if pyTruthy rt then some (analyze_report_content (effectiveSend apiKey send) rt gender)
        else none }

/-- digidoc.py lines 189-197: the fixed part of final_prompt before the
interpolated combined context. -/
def finalT1 : Str :=
  "\n    You are an advanced AI medical assistant. Use the following data extracted from the reports and images\n    to answer the user's question comprehensively. Provide relevant information, possible diagnoses,\n    and suggest specialist doctors if needed.\n\n    ".data

/-- digidoc.py line 196: the fixed part of final_prompt between the
combined context and the question. -/
def finalT2 : Str := "\n\n    Question: ".data

/-- digidoc.py line 197: the fixed part of final_prompt after the question. -/
def finalT3 : Str := "\n    ".data

/-- digidoc.py lines 182-186: combined_context, appending a report line and
an image line only when the corresponding text is truthy. -/
def combinedContext (reportText imageContext : Str) : Str :=
  (if pyTruthy reportText then "Report Data: ".data ++ reportText ++ "\n".data else []) ++
  (if pyTruthy imageContext then "Image Analysis: ".data ++ imageContext ++ "\n".data else [])

/-- digidoc.py lines 189-197: final_prompt of get_response_with_context. -/
def finalPrompt (question reportText imageContext : Str) : Str :=
  finalT1 ++ combinedContext reportText imageContext ++ finalT2 ++ question ++ finalT3

/-- digidoc.py line 124: the fixed prompt of the image analysis call. -/
def imagePrompt : Str := "Analyze the image content".data

/-- The three prompt templates of the pipeline. -/
inductive TemplateKind
  | initialAnalysis
  | contextualQuestion
  | imageAnalysis
deriving DecidableEq

/-- The prompt composer: every prompt the pipeline sends is built by one of
the three pure string builders of digidoc.py. -/
def composePrompt : TemplateKind → Str → Str → Str → Str → Str
  | TemplateKind.initialAnalysis, reportText, _, gender, _ => analysisPrompt reportText gender
  | TemplateKind.contextualQuestion, reportText, imageContext, _, question =>
    finalPrompt question reportText imageContext
  | TemplateKind.imageAnalysis, _, _, _, _ => imagePrompt

/-- The left-brace character, head of the replace pattern. -/
def lbrace : Char := Char.ofNat 123

/-! ## Helper lemmas -/

theorem sliceChunksF_flatten {n : Nat} (hn : 0 < n) :
    ∀ fuel s, s.length ≤ fuel → (sliceChunksF n fuel s).flatten = s := by
  intro fuel
  induction fuel with
  | zero =>
    intro s hs
    cases s with
    | nil => simp [sliceChunksF]
    | cons c rest => simp at hs
  | succ f ih =>
    intro s hs
    cases s with
    | nil => simp [sliceChunksF]
    | cons c rest =>
      have hd : ((c :: rest).drop n).length ≤ f := by
        rw [List.length_drop]
        simp only [List.length_cons] at hs ⊢
        omega
      simp only [sliceChunksF, List.flatten_cons, ih _ hd, List.take_append_drop]

theorem pythonChunks_flatten {n : Nat} (hn : 0 < n) (s : Str) :
    (pythonChunks s n).flatten = s :=
  sliceChunksF_flatten hn s.length s (Nat.le_refl _)

theorem pyReplaceF_eq_of_not_occ (pat rep : Str) :
    ∀ fuel s, ¬ pat <:+: s → pyReplaceF pat rep fuel s = s := by
  intro fuel
  induction fuel with
  | zero =>
    intro s _
    cases s <;> simp [pyReplaceF]
  | succ f ih =>
    intro s h
    cases s with
    | nil => simp [pyReplaceF]
    | cons c rest =>
      have hnp : ¬ (pat.isPrefixOf (c :: rest) && !pat.isEmpty) = true := by
        intro hb
        simp only [Bool.and_eq_true] at hb
        obtain ⟨t, ht⟩ := List.isPrefixOf_iff_prefix.mp hb.1
        exact h ⟨[], t, by simpa using ht⟩
      have hrest : ¬ pat <:+: rest := by
        intro hr
        obtain ⟨u, v, huv⟩ := hr
        exact h ⟨c :: u, v, by simp [huv]⟩
      simp only [pyReplaceF, if_neg hnp, ih rest hrest]

theorem pyReplace_eq_of_not_occ (pat rep s : Str) (h : ¬ pat <:+: s) :
    pyReplace pat rep s = s :=
  pyReplaceF_eq_of_not_occ pat rep s.length s h

theorem occSplit {α : Type} {p X Y : List α} (h : p <:+: X ++ Y) :
    p <:+: X ∨ p <:+: Y ∨
      ∃ a b, p = a ++ b ∧ a ≠ [] ∧ b ≠ [] ∧ a <:+ X ∧ b <+: Y := by
  obtain ⟨u, v, huv⟩ := h
  have h1 : (u ++ p) ++ v = X ++ Y := by simpa [List.append_assoc] using huv
  rcases List.append_eq_append_iff.mp h1 with ⟨w, hw1, _⟩ | ⟨w, hw1, hw2⟩
  · exact Or.inl ⟨u, w, by simp [hw1, List.append_assoc]⟩
  · rcases List.append_eq_append_iff.mp hw1 with ⟨z, hz1, hz2⟩ | ⟨z, hz1, hz2⟩
    · by_cases hz : z = []
      · subst hz
        simp only [List.nil_append] at hz2
        exact Or.inr (Or.inl ⟨[], v, by simp [hz2, hw2]⟩)
      · by_cases hwe : w = []
        · subst hwe
          simp only [List.append_nil] at hz2
          exact Or.inl ⟨u, [], by simp [hz1, hz2]⟩
        · exact Or.inr (Or.inr ⟨z, w, hz2, hz, hwe, ⟨u, hz1.symm⟩, ⟨v, hw2.symm⟩⟩)
    · exact Or.inr (Or.inl ⟨z, v, by simp [hw2, hz2, List.append_assoc]⟩)

theorem patRT_head : patRT = lbrace :: "report_text\x7d".data := by decide

theorem patRT_not_occ_prompt {r g : Str} (hr : ¬ patRT <:+: r)
    (hg : g = "Male".data ∨ g = "Female".data ∨ g = "Other".data) :
    ¬ patRT <:+: analysisPrompt r g := by
  intro hocc
  have hbl : lbrace ∈ patRT := by decide
  have hnl : ('\n' ∈ patRT) = False := by decide
  have hassoc : analysisPrompt r g = (promptT1 ++ (g ++ promptT2)) ++ (r ++ promptT3) := by
    simp [analysisPrompt, List.append_assoc]
  rw [hassoc] at hocc
  have hlA : lbrace ∉ promptT1 ++ (g ++ promptT2) := by
    intro hm
    rcases List.mem_append.mp hm with hm1 | hm2
    · revert hm1; decide
    · rcases List.mem_append.mp hm2 with hmg | hm3
      · rcases hg with rfl | rfl | rfl <;> revert hmg <;> decide
      · revert hm3; decide
  rcases occSplit hocc with hX | hY | hmid
  · exact hlA (hX.subset hbl)
  · rcases occSplit hY with hInR | hT3 | hmid2
    · exact hr hInR
    · have : lbrace ∈ promptT3 := hT3.subset hbl
      revert this; decide
    · obtain ⟨a, b, hab, _, hb, _, hpfx⟩ := hmid2
      obtain ⟨t, htb⟩ := hpfx
      cases b with
      | nil => exact hb rfl
      | cons x b2 =>
        have h3 : promptT3 = '\n' :: "    ".data := by decide
        rw [h3] at htb
        have hx : x = '\n' := (List.cons.inj htb).1
        have hbpat : '\n' ∈ patRT := by
          have hsb : (x :: b2) <:+ patRT := ⟨a, hab.symm⟩
          exact hsb.subset (hx ▸ List.mem_cons_self x b2)
        rw [hnl] at hbpat
        exact hbpat
  · obtain ⟨a, b, hab, ha, _, hsfx, _⟩ := hmid
    cases a with
    | nil => exact ha rfl
    | cons x a2 =>
      rw [patRT_head] at hab
      have hx : x = lbrace := (List.cons.inj hab).1.symm
      have : lbrace ∈ promptT1 ++ (g ++ promptT2) :=
        hsfx.subset (hx ▸ List.mem_cons_self x a2)
      exact hlA this

theorem sliceChunksF_nil (n fuel : Nat) : sliceChunksF n fuel [] = [] := by
  cases fuel <;> rfl

/-! ## Claim theorems -/

/-- C1: the claim that concatenating all chunk texts reconstructs the
original report text fails: summarize_report truncates any report longer
than 1000 characters to its first 1000 characters plus "...", so for a
1001-character report the concatenation of the chunks differs from the
report.  Counterexample at 1001 repetitions of 'a'. -/
theorem chunks_lose_truncated_tail :
    (pythonChunks (summarize_report (List.replicate 1001 'a') 1000) 1000).flatten
      ≠ List.replicate 1001 'a' := by
  have h0 : (0 : Nat) < 1000 := by omega
  rw [pythonChunks_flatten h0]
  have hgt : (List.replicate 1001 'a').length > 1000 := by
    rw [List.length_replicate]
    omega
  unfold summarize_report
  rw [if_pos hgt]
  intro h
  have hlen := congrArg List.length h
  have h3 : ("...".data : Str).length = 3 := by decide
  rw [List.length_append, List.length_take, List.length_replicate, h3] at hlen
  omega

/-- C1 (amended): concatenating all chunk texts in order reconstructs the
summarized report text exactly; it reconstructs the original report text
exactly when the report has at most 1000 characters, and loses the
truncated tail otherwise. -/
theorem chunks_reconstruct_summarized (r : Str) :
    (pythonChunks (summarize_report r 1000) 1000).flatten = summarize_report r 1000 ∧
    (r.length ≤ 1000 → (pythonChunks (summarize_report r 1000) 1000).flatten = r) := by
  constructor
  · exact pythonChunks_flatten (by omega) _
  · intro h
    have hs : summarize_report r 1000 = r := by
      unfold summarize_report
      rw [if_neg (by omega)]
    rw [hs]
    exact pythonChunks_flatten (by omega) r

theorem chunks_reconstruct_summarized_witness :
    ("abc".data : Str).length ≤ 1000 ∧
    (pythonChunks (summarize_report "abc".data 1000) 1000).flatten = "abc".data :=
  ⟨by decide, (chunks_reconstruct_summarized "abc".data).2 (by decide)⟩

/-- C2: for every report text not containing the literal pattern and every
gender offered by the selectbox, analysis_prompt.replace leaves the prompt
unchanged, so every chunk iteration sends the identical prompt, which
carries the full interpolated report text rather than that iteration's
chunk. -/
theorem analysis_prompt_constant_across_chunks {r g : Str}
    (hr : ¬ patRT <:+: r)
    (hg : g = "Male".data ∨ g = "Female".data ∨ g = "Other".data) :
    (∀ m ∈ analysisMessages r g, m = analysisPrompt r g) ∧
    r <:+: analysisPrompt r g := by
  constructor
  · intro m hm
    simp only [analysisMessages, List.mem_map] at hm
    obtain ⟨c, _, rfl⟩ := hm
    exact pyReplace_eq_of_not_occ _ _ _ (patRT_not_occ_prompt hr hg)
  · exact ⟨promptT1 ++ g ++ promptT2, promptT3, by simp [analysisPrompt, List.append_assoc]⟩

theorem analysis_prompt_constant_across_chunks_witness :
    (¬ patRT <:+: ("Hb: 13 g/dL".data : Str)) ∧
    ∀ m ∈ analysisMessages "Hb: 13 g/dL".data "Male".data,
      m = analysisPrompt "Hb: 13 g/dL".data "Male".data :=
  ⟨by decide,
   (analysis_prompt_constant_across_chunks (by decide) (Or.inl rfl)).1⟩

/-- C8: a non-empty report of at most 1000 characters yields exactly one
chunk equal to the whole report; the empty report yields zero chunks, on
which analyze_report_content makes no reasoner call and returns the empty
join rather than an error. -/
theorem single_chunk_and_empty_bundle {r : Str} (h0 : 0 < r.length)
    (h1 : r.length ≤ 1000) :
    pythonChunks (summarize_report r 1000) 1000 = [r] ∧
    pythonChunks (summarize_report [] 1000) 1000 = [] ∧
    ∀ send g, analyzeTrace send [] g = [] ∧ analyze_report_content send [] g = [] := by
  have hs : summarize_report r 1000 = r := by
    unfold summarize_report
    rw [if_neg (by omega)]
  refine ⟨?_, by decide, ?_⟩
  · rw [hs]
    cases r with
    | nil => simp at h0
    | cons c rest =>
      show sliceChunksF 1000 (c :: rest).length (c :: rest) = [c :: rest]
      rw [List.length_cons]
      simp only [sliceChunksF]
      rw [List.take_of_length_le (by simpa using h1),
        List.drop_eq_nil_of_le (by simpa using h1), sliceChunksF_nil]
  · intro send g
    exact ⟨rfl, rfl⟩

theorem single_chunk_and_empty_bundle_witness :
    0 < ("Hb".data : Str).length ∧ ("Hb".data : Str).length ≤ 1000 ∧
    pythonChunks (summarize_report "Hb".data 1000) 1000 = ["Hb".data] :=
  ⟨by decide, by decide, (single_chunk_and_empty_bundle (by decide) (by decide)).1⟩

/-- C3 fails: a raised reasoner exception is caught and converted into the
empty string, which is exactly the value a successful run returns when the
single chunk's response text is empty — the failure is indistinguishable
from an empty success in the returned value. -/
theorem reasoner_failure_empty_success_collision :
    analyze_report_content (fun _ => Except.error ReasonerError.stopCandidate)
        "Hb: 13 g/dL".data "Male".data = [] ∧
    analyze_report_content (fun _ => Except.ok []) "Hb: 13 g/dL".data "Male".data = [] :=
  ⟨rfl, rfl⟩

/-- C3 (amended): when any reasoner call inside analyze_report_content
raises, the function catches the exception and returns the empty string;
the error reaches the caller only as a UI side effect, not as a typed
outcome, and the empty string coincides with a possible success value. -/
theorem reasoner_failure_returns_empty (send : Reasoner) (r g : Str)
    (e : ReasonerError)
    (h : (sendAll send (analysisMessages r g)).2 = Except.error e) :
    analyze_report_content send r g = [] := by
  unfold analyze_report_content
  rw [h]

theorem reasoner_failure_returns_empty_witness :
    (sendAll (fun _ => Except.error ReasonerError.stopCandidate)
        (analysisMessages "Hb".data "Male".data)).2
      = Except.error ReasonerError.stopCandidate ∧
    analyze_report_content (fun _ => Except.error ReasonerError.stopCandidate)
        "Hb".data "Male".data = [] :=
  ⟨rfl, reasoner_failure_returns_empty _ _ _ ReasonerError.stopCandidate rfl⟩

theorem sendAll_trace_pfx (send : Reasoner) : ∀ ms, (sendAll send ms).1 <+: ms := by
  intro ms
  induction ms with
  | nil => exact ⟨[], rfl⟩
  | cons m ms ih =>
    cases hsm : send m with
    | error e =>
      have h1 : (sendAll send (m :: ms)).1 = [m] := by simp [sendAll, hsm]
      rw [h1]
      exact ⟨ms, rfl⟩
    | ok t =>
      have h1 : (sendAll send (m :: ms)).1 = m :: (sendAll send ms).1 := by
        simp [sendAll, hsm]
      rw [h1]
      obtain ⟨t2, ht2⟩ := ih
      exact ⟨t2, by simp [ht2]⟩

theorem sendAll_trace_ok (send : Reasoner) :
    ∀ ms, (∀ m ∈ ms, ∃ t, send m = Except.ok t) → (sendAll send ms).1 = ms := by
  intro ms
  induction ms with
  | nil => intro _; rfl
  | cons m ms ih =>
    intro h
    obtain ⟨t, ht⟩ := h m (List.mem_cons_self m ms)
    have h2 := ih (fun x hx => h x (List.mem_cons_of_mem m hx))
    simp [sendAll, ht, h2]

theorem sendAll_trace_stop (send : Reasoner) :
    ∀ pre m post e, (∀ x ∈ pre, ∃ t, send x = Except.ok t) →
      send m = Except.error e →
      (sendAll send (pre ++ m :: post)).1 = pre ++ [m] := by
  intro pre
  induction pre with
  | nil =>
    intro m post e _ hm
    simp [sendAll, hm]
  | cons x pre ih =>
    intro m post e h hm
    obtain ⟨t, ht⟩ := h x (List.mem_cons_self x pre)
    have h2 := ih m post e (fun y hy => h y (List.mem_cons_of_mem x hy)) hm
    simp [sendAll, ht, h2]

/-- C10: the reasoner calls of analyze_report_content form a trace that is
always an initial segment of the per-chunk message list: when every call
succeeds the trace is exactly one call per chunk in chunk order, and when
the call for some chunk raises, the trace stops at that chunk — no later
chunk's request is ever issued, so chunk i+1's request happens only after
chunk i's has completed successfully. -/
theorem reasoner_calls_sequential_in_chunk_order (send : Reasoner) (r g : Str) :
    analyzeTrace send r g <+: analysisMessages r g ∧
    ((∀ m ∈ analysisMessages r g, ∃ t, send m = Except.ok t) →
      analyzeTrace send r g = analysisMessages r g) ∧
    (∀ pre m post e, analysisMessages r g = pre ++ m :: post →
      (∀ x ∈ pre, ∃ t, send x = Except.ok t) → send m = Except.error e →
      analyzeTrace send r g = pre ++ [m]) := by
  refine ⟨sendAll_trace_pfx send _, fun h => sendAll_trace_ok send _ h, ?_⟩
  intro pre m post e heq h hm
  show (sendAll send (analysisMessages r g)).1 = pre ++ [m]
  rw [heq]
  exact sendAll_trace_stop send pre m post e h hm

theorem reasoner_calls_sequential_in_chunk_order_witness :
    analyzeTrace (fun _ => Except.ok []) (List.replicate 1500 'a') "Male".data
      = analysisMessages (List.replicate 1500 'a') "Male".data :=
  (reasoner_calls_sequential_in_chunk_order (fun _ => Except.ok [])
      (List.replicate 1500 'a') "Male".data).2.1 (fun _ _ => ⟨[], rfl⟩)

/-- C4 fails: the upload loop of digidoc.py lines 215-220 has no exception
handler, so a corrupt PDF in first position aborts the whole loop: the
valid PDF after it is never processed and no result is produced at all. -/
theorem corrupt_pdf_aborts_other_sources :
    uploadLoop [UFile.pdf PdfSource.corrupt,
        UFile.pdf (PdfSource.ok [some "Hb: 13 g/dL".data])] ([], [])
      = Except.error ExtractionError.extractionError := rfl

/-- C4 (amended): an extraction failure on one source aborts processing of
every remaining source: as soon as a corrupt PDF is met, the loop stops
with the raised ExtractionError, whatever files follow and whatever was
already accumulated. -/
theorem corrupt_pdf_aborts_loop (rest : List UFile) (st : Str × Str) :
    uploadLoop (UFile.pdf PdfSource.corrupt :: rest) st
      = Except.error ExtractionError.extractionError := rfl

theorem uploadLoop_closed_form :
    ∀ fs : List UFile, (∀ f ∈ fs, f ≠ UFile.pdf PdfSource.corrupt) →
      ∀ st : Str × Str, uploadLoop fs st =
        Except.ok ((fs.filterMap pdfOut).getLastD st.1,
          st.2 ++ (fs.filterMap imgOut).flatten) := by
  intro fs
  induction fs with
  | nil =>
    intro _ st
    simp [uploadLoop]
  | cons f fs ih =>
    intro h st
    have hrest := fun x hx => h x (List.mem_cons_of_mem f hx)
    cases f with
    | pdf src =>
      cases src with
      | corrupt => exact absurd rfl (h _ (List.mem_cons_self _ _))
      | ok pages =>
        simp only [uploadLoop, extract_text_from_pdf, ih hrest,
          List.filterMap_cons, pdfOut, imgOut, List.getLastD_cons]
    | image a =>
      simp only [uploadLoop, ih hrest, List.filterMap_cons, pdfOut, imgOut,
        List.flatten_cons, List.append_assoc]

/-- C5: for every arrival-ordered upload list whose PDFs are all readable,
the loop returns report_text equal to the extracted text of the last PDF
alone (each later PDF overwrites the earlier one) and image_context equal
to the concatenation, in arrival order, of the analyses of all images. -/
theorem last_pdf_wins_images_accumulate (files : List UFile)
    (h : ∀ f ∈ files, f ≠ UFile.pdf PdfSource.corrupt) :
    uploadLoop files ([], []) =
      Except.ok (lastPdfExtractedText files, allImageAnalyses files) := by
  have hmain := uploadLoop_closed_form files h ([], [])
  simpa [lastPdfExtractedText, allImageAnalyses] using hmain

theorem last_pdf_wins_images_accumulate_witness :
    (∀ f ∈ [UFile.pdf (PdfSource.ok [some "A1".data]), UFile.image "I1".data,
        UFile.pdf (PdfSource.ok [some "B2".data]), UFile.image "I2".data],
      f ≠ UFile.pdf PdfSource.corrupt) ∧
    uploadLoop [UFile.pdf (PdfSource.ok [some "A1".data]), UFile.image "I1".data,
        UFile.pdf (PdfSource.ok [some "B2".data]), UFile.image "I2".data] ([], [])
      = Except.ok
          (lastPdfExtractedText [UFile.pdf (PdfSource.ok [some "A1".data]),
              UFile.image "I1".data, UFile.pdf (PdfSource.ok [some "B2".data]),
              UFile.image "I2".data],
           allImageAnalyses [UFile.pdf (PdfSource.ok [some "A1".data]),
              UFile.image "I1".data, UFile.pdf (PdfSource.ok [some "B2".data]),
              UFile.image "I2".data]) :=
  ⟨by decide, last_pdf_wins_images_accumulate _ (by decide)⟩

theorem analyze_unconfigured_empty (send : Reasoner) (rt g : Str) :
    analyze_report_content (effectiveSend none send) rt g = [] := by
  cases hms : analysisMessages rt g with
  | nil =>
    unfold analyze_report_content
    rw [hms]
    rfl
  | cons m ms =>
    unfold analyze_report_content
    rw [hms]
    simp [sendAll, effectiveSend, pyTruthyOpt]

/-- C6 fails: with GOOGLE_API_KEY absent the script only displays an error
message and keeps running: for a valid PDF upload the extraction runs, the
analysis is invoked mid-pipeline, and its failure (unconfigured reasoner)
is absorbed into an empty analysis output. -/
theorem missing_key_pipeline_still_runs :
    (scriptRun none (fun _ => Except.ok "OK".data) "Male".data
        [UFile.pdf (PdfSource.ok [some "Hb: 13 g/dL".data])]).keyErrorShown = true ∧
    (scriptRun none (fun _ => Except.ok "OK".data) "Male".data
        [UFile.pdf (PdfSource.ok [some "Hb: 13 g/dL".data])]).uploadResult
      = Except.ok ("\n\nPage 1:\nHb: 13 g/dL".data, []) ∧
    (scriptRun none (fun _ => Except.ok "OK".data) "Male".data
        [UFile.pdf (PdfSource.ok [some "Hb: 13 g/dL".data])]).analysisOutput
      = some [] :=
  ⟨rfl, rfl, rfl⟩

/-- C6 (amended): the absence of the credential is not startup-fatal: the
script shows an error message but the upload loop still runs, and whenever
the extracted report text is truthy the analysis is still invoked, failing
mid-pipeline with its error absorbed into an empty output. -/
theorem missing_key_error_not_fatal (send : Reasoner) (g : Str)
    (files : List UFile) (rt ic : Str)
    (h : uploadLoop files ([], []) = Except.ok (rt, ic)) :
    (scriptRun none send g files).keyErrorShown = true ∧
    (scriptRun none send g files).uploadResult = Except.ok (rt, ic) ∧
    (pyTruthy rt = true →
      (scriptRun none send g files).analysisOutput = some []) := by
  have hs : scriptRun none send g files =
      { keyErrorShown := true,
        uploadResult := Except.ok (rt, ic),
        analysisOutput := if pyTruthy rt then
            some (analyze_report_content (effectiveSend none send) rt g)
          else none } := by
    unfold scriptRun
    rw [h]
    rfl
  refine ⟨by rw [hs], by rw [hs], ?_⟩
  intro hrt
  rw [hs]
  simp only [if_pos hrt, analyze_unconfigured_empty]

theorem missing_key_error_not_fatal_witness :
    uploadLoop [UFile.pdf (PdfSource.ok [some "Hb: 13 g/dL".data])] ([], [])
      = Except.ok ("\n\nPage 1:\nHb: 13 g/dL".data, []) ∧
    ((scriptRun none (fun _ => Except.error ReasonerError.stopCandidate)
        "Female".data [UFile.pdf (PdfSource.ok [some "Hb: 13 g/dL".data])]).keyErrorShown
        = true ∧
      (scriptRun none (fun _ => Except.error ReasonerError.stopCandidate)
        "Female".data [UFile.pdf (PdfSource.ok [some "Hb: 13 g/dL".data])]).uploadResult
        = Except.ok ("\n\nPage 1:\nHb: 13 g/dL".data, []) ∧
      (pyTruthy "\n\nPage 1:\nHb: 13 g/dL".data = true →
        (scriptRun none (fun _ => Except.error ReasonerError.stopCandidate)
          "Female".data [UFile.pdf (PdfSource.ok [some "Hb: 13 g/dL".data])]).analysisOutput
          = some [])) :=
  ⟨rfl, missing_key_error_not_fatal _ _ _ _ _ rfl⟩

theorem keepPage_blank (n : Nat) (p : Option Str) (hp : isBlankPage p = true) :
    keepPage (n, p) = none := by
  cases p with
  | none => rfl
  | some t =>
    have hall := List.all_eq_true.mp (by simpa [isBlankPage] using hp)
    have hne : ¬ (t.any (fun c => !pyIsSpace c) = true) := by
      intro hany
      obtain ⟨c, hc, hcf⟩ := List.any_eq_true.mp hany
      have hcs := hall c hc
      rw [hcs] at hcf
      simp at hcf
    simp only [keepPage, if_neg hne]

theorem pageUnitsFrom_snd_const :
    ∀ pages n m, (pageUnitsFrom n pages).map Prod.snd
      = (pageUnitsFrom m pages).map Prod.snd := by
  intro pages
  induction pages with
  | nil => intro n m; rfl
  | cons p rest ih =>
    intro n m
    cases p with
    | none => simpa [pageUnitsFrom, keepPage] using ih (n + 1) (m + 1)
    | some t =>
      by_cases ht : t.any (fun c => !pyIsSpace c) = true
      · simpa [pageUnitsFrom, keepPage, ht] using ih (n + 1) (m + 1)
      · simpa [pageUnitsFrom, keepPage, ht] using ih (n + 1) (m + 1)

theorem pageUnitsFrom_mem_nonblank :
    ∀ pages n u, u ∈ pageUnitsFrom n pages →
      u.2.any (fun c => !pyIsSpace c) = true := by
  intro pages
  induction pages with
  | nil => intro n u hu; simp [pageUnitsFrom] at hu
  | cons q rest ih =>
    intro n u hu
    cases q with
    | none => exact ih (n + 1) u (by simpa [pageUnitsFrom, keepPage] using hu)
    | some t =>
      by_cases ht : t.any (fun c => !pyIsSpace c) = true
      · rw [show pageUnitsFrom n (some t :: rest)
            = (n, t) :: pageUnitsFrom (n + 1) rest by
          simp [pageUnitsFrom, keepPage, ht]] at hu
        rcases List.mem_cons.mp hu with rfl | hu2
        · exact ht
        · exact ih (n + 1) u hu2
      · exact ih (n + 1) u (by simpa [pageUnitsFrom, keepPage, ht] using hu)

theorem blank_units_invariant :
    ∀ pre (p : Option Str), isBlankPage p = true → ∀ post n,
      (pageUnitsFrom n (pre ++ p :: post)).map Prod.snd
        = (pageUnitsFrom n (pre ++ post)).map Prod.snd := by
  intro pre
  induction pre with
  | nil =>
    intro p hp post n
    simp only [List.nil_append, pageUnitsFrom, keepPage_blank n p hp]
    exact pageUnitsFrom_snd_const post (n + 1) n
  | cons q pre ih =>
    intro p hp post n
    simp only [List.cons_append, pageUnitsFrom]
    cases hk : keepPage (n, q) with
    | none => exact ih p hp post (n + 1)
    | some u => simp [List.map_cons, ih p hp post (n + 1)]

/-- C7: a page without non-whitespace content produces no evidence unit:
inserting a blank page anywhere leaves the sequence of unit contents
unchanged, every produced unit has non-whitespace content, and the page
sequence ["", "  ", "Hb: 13 g/dL"] yields exactly one unit, carrying
"Hb: 13 g/dL" on page number 3, with extraction succeeding rather than
raising. -/
theorem blank_pages_produce_no_units (pre post : List (Option Str))
    (p : Option Str) (hp : isBlankPage p = true) :
    ((pageUnits (pre ++ p :: post)).map Prod.snd
      = (pageUnits (pre ++ post)).map Prod.snd) ∧
    (∀ pages, ∀ u ∈ pageUnits pages, u.2.any (fun c => !pyIsSpace c) = true) ∧
    pageUnits [some [], some "  ".data, some "Hb: 13 g/dL".data]
      = [(2, "Hb: 13 g/dL".data)] ∧
    extract_text_from_pdf
        (PdfSource.ok [some [], some "  ".data, some "Hb: 13 g/dL".data])
      = Except.ok "\n\nPage 3:\nHb: 13 g/dL".data := by
  refine ⟨blank_units_invariant pre p hp post 0,
    fun pages u hu => pageUnitsFrom_mem_nonblank pages 0 u hu, by decide, rfl⟩

theorem blank_pages_produce_no_units_witness :
    isBlankPage (some "  ".data) = true ∧
    (pageUnits [some "  ".data, some "Hb: 13 g/dL".data]).map Prod.snd
      = (pageUnits [some "Hb: 13 g/dL".data]).map Prod.snd :=
  ⟨by decide, (blank_pages_produce_no_units [] [some "Hb: 13 g/dL".data]
      (some "  ".data) (by decide)).1⟩

/-- C9: prompt composition is deterministic and side-effect free: the three
template builders are pure functions, so two invocations on identical
inputs (template kind, report text, image context, gender, question) yield
identical prompt text. -/
theorem compose_deterministic (k k2 : TemplateKind) (rt rt2 ic ic2 g g2 q q2 : Str)
    (hk : k = k2) (h1 : rt = rt2) (h2 : ic = ic2) (h3 : g = g2) (h4 : q = q2) :
    composePrompt k rt ic g q = composePrompt k2 rt2 ic2 g2 q2 := by
  subst hk h1 h2 h3 h4
  rfl

theorem compose_deterministic_witness :
    composePrompt TemplateKind.contextualQuestion "Hb".data "img".data
        "Male".data "What is Hb?".data
      = composePrompt TemplateKind.contextualQuestion "Hb".data "img".data
        "Male".data "What is Hb?".data :=
  compose_deterministic _ _ _ _ _ _ _ _ _ _ rfl rfl rfl rfl rfl

end DigiDoc
